import Mathlib

/-!
Verification of the amm_reflect crate (src/amm_reflect/src): the
rate-to-quote arithmetic (calculate_exact_in, calculate_exact_out,
ReflectAmm::quote), the account-metadata assembly protocol
(TryFrom<ReflectSwap> for Vec<AccountMeta>,
ReflectAmm::get_swap_and_account_metas) and the cache refresh
(ReflectAmm::update).

Modelling conventions:
- Machine integers are naturals. The u128 checked operations carry an
  explicit bound check against 2^128, and the final "as u64" casts of the
  two calculation routines are an explicit reduction modulo 2^64.
- Solana public keys are modelled as naturals. The nineteen distinct
  base58 address constants of constants.rs (plus the system program and
  the clock sysvar referenced from the sdk) are mapped to distinct
  naturals, since the code under verification only ever compares
  addresses for equality.
- anyhow errors are one inductive, one constructor per distinct failure
  site of the crate.
- The mutable-reference receiver of ReflectAmm::update is modelled by
  returning the post-call state next to the call result, so that the
  state observed by the caller after a failing call is explicit.
-/

namespace Reflect

abbrev Pubkey := Nat

/-- REFLECT_LABEL of constants.rs. -/
def REFLECT_LABEL : String := "ReflectAmm"

-- Address constants of constants.rs, one distinct natural per module.
def reflect.ID : Pubkey := 1

def drift.ID : Pubkey := 2

def reflect_main.ID : Pubkey := 3

def usdc_controller.ID : Pubkey := 4

def admin_permissions.ID : Pubkey := 5

def controller_usdc_ata.ID : Pubkey := 6

def usdc_plus_mint.ID : Pubkey := 7

def drift_state.ID : Pubkey := 8

def drift_user_stats.ID : Pubkey := 9

def referrer_user_stats.ID : Pubkey := 10

def referrer_user.ID : Pubkey := 11

def reflect_user_account_strategy_0.ID : Pubkey := 12

def drift_spot_market_vault.ID : Pubkey := 13

def drift_vault.ID : Pubkey := 14

def usdc_oracle.ID : Pubkey := 15

def usdc_spot_market.ID : Pubkey := 16

def usdc_mint.ID : Pubkey := 17

def token_program.ID : Pubkey := 18

-- solana_sdk::system_program::ID and sysvar::clock::ID, referenced by the
-- account table.
def system_program.ID : Pubkey := 19

def sysvar_clock.ID : Pubkey := 20

/-- SwapMode of lib.rs. -/
inductive SwapMode where
  | ExactIn : SwapMode
  | ExactOut : SwapMode
  deriving DecidableEq

/-- QuoteParams of lib.rs (amount is a u64). -/
structure QuoteParams where
  amount : Nat
  input_mint : Pubkey
  output_mint : Pubkey
  swap_mode : SwapMode
  deriving DecidableEq

/-- Quote of lib.rs. The fee_pct field is a rust_decimal Decimal in the
source; ReflectAmm::quote always leaves it at the Default zero value
(via ..Quote::default()), so a natural suffices. -/
structure Quote where
  in_amount : Nat
  out_amount : Nat
  fee_amount : Nat
  fee_mint : Pubkey
  fee_pct : Nat
  deriving DecidableEq

/-- Error values produced by the crate. The source uses anyhow string
errors; one constructor per distinct failure site.
- invalidInputMint: "Invalid input mint: ..." in get_rate_for_input_mint.
- overflowInQuote: "Overflow in quote calculation" from checked_mul or
  checked_add in the calculation routines.
- divisionError: "Division error in quote calculation" from checked_div.
- rateUnderflow: the expression (rate as u128 - 1) in calculate_exact_out
  aborts with a subtraction overflow in debug builds when rate = 0; this
  constructor records that abort. (In release builds the subtraction
  wraps and the subsequent checked_add or checked_div fails instead, so
  in either build calculate_exact_out with rate = 0 never returns Ok.)
- invalidMintPair: "Invalid mint pair: ..." in get_swap_and_account_metas.
- accountNotFound: "Could not find address: ..." in try_get_account_data.
- upstream: any error returned by the external usdc_plus_exchange
  rate-computation routines consumed by update. -/
inductive AmmError where
  | invalidInputMint : AmmError
  | overflowInQuote : AmmError
  | divisionError : AmmError
  | rateUnderflow : AmmError
  | invalidMintPair : AmmError
  | accountNotFound : AmmError
  | upstream : AmmError
  deriving DecidableEq

/-- Size of the u64 value space; the "as u64" cast reduces modulo this. -/
def U64_SIZE : Nat := 2 ^ 64

/-- Size of the u128 value space; the checked u128 operations bound-check
against this. -/
def U128_SIZE : Nat := 2 ^ 128

/-- u128::checked_mul. -/
def checked_mul_u128 (a b : Nat) : Option Nat :=
  if a * b < U128_SIZE then some (a * b) else none

/-- u128::checked_add. -/
def checked_add_u128 (a b : Nat) : Option Nat :=
  if a + b < U128_SIZE then some (a + b) else none

/-- u128::checked_div: none exactly on a zero divisor. -/
def checked_div_u128 (a b : Nat) : Option Nat :=
  if b = 0 then none else some (a / b)

/-- BASE_AMOUNT of lib.rs and math.rs: 100_000000. -/
def BASE_AMOUNT : Nat := 100000000

/-- calculate_exact_in of lib.rs (identical in math.rs):
(amount as u128).checked_mul(rate).checked_div(BASE_AMOUNT), then the
result is cast back with "as u64". -/
def calculate_exact_in (amount rate : Nat) : Except AmmError Nat :=
  match checked_mul_u128 amount rate with
  | none => .error .overflowInQuote
  | some product =>
    match checked_div_u128 product BASE_AMOUNT with
    | none => .error .divisionError
    | some out_amount => .ok (out_amount % U64_SIZE)

/-- calculate_exact_out of lib.rs (identical in math.rs):
(amount as u128).checked_mul(BASE_AMOUNT).checked_add(rate as u128 - 1)
.checked_div(rate), then "as u64". The unchecked subtraction
(rate as u128 - 1) aborts in debug builds when rate = 0, which the
rateUnderflow error value records (see AmmError). -/
def calculate_exact_out (amount rate : Nat) : Except AmmError Nat :=
  match checked_mul_u128 amount BASE_AMOUNT with
  | none => .error .overflowInQuote
  | some scaled =>
    if rate = 0 then .error .rateUnderflow
    else
      match checked_add_u128 scaled (rate - 1) with
      | none => .error .overflowInQuote
      | some summed =>
        match checked_div_u128 summed rate with
        | none => .error .divisionError
        | some in_amount => .ok (in_amount % U64_SIZE)

/-- ReflectAmm of lib.rs. Only the two rate fields are mutable state; the
rest is the fixed address configuration populated by ReflectAmm::new. -/
structure ReflectAmm where
  label : String
  program_id : Pubkey
  main : Pubkey
  usdc_plus_controller : Pubkey
  admin_permissions : Pubkey
  usdc_plus_mint : Pubkey
  controller_usdc_ata : Pubkey
  drift_program : Pubkey
  drift_state : Pubkey
  drift_user_stats : Pubkey
  usdc_plus_drift_user_acc : Pubkey
  drift_spot_market_vault : Pubkey
  drift_vault : Pubkey
  referrer_user_stats : Pubkey
  referrer_user : Pubkey
  drift_usdc_spot_market : Pubkey
  usdc_oracle : Pubkey
  rate_100_usdc : Nat
  rate_100_usdc_plus : Nat
  deriving DecidableEq

/-- ReflectAmm::new of lib.rs: the fixed address table, rates zero. -/
def ReflectAmm.new : ReflectAmm :=
  { label := REFLECT_LABEL
    program_id := reflect.ID
    main := reflect_main.ID
    usdc_plus_controller := usdc_controller.ID
    admin_permissions := admin_permissions.ID
    usdc_plus_mint := usdc_plus_mint.ID
    controller_usdc_ata := controller_usdc_ata.ID
    drift_program := drift.ID
    drift_state := drift_state.ID
    drift_user_stats := drift_user_stats.ID
    usdc_plus_drift_user_acc := reflect_user_account_strategy_0.ID
    drift_spot_market_vault := drift_spot_market_vault.ID
    drift_vault := drift_vault.ID
    referrer_user_stats := referrer_user_stats.ID
    referrer_user := referrer_user.ID
    drift_usdc_spot_market := usdc_spot_market.ID
    usdc_oracle := usdc_oracle.ID
    rate_100_usdc := 0
    rate_100_usdc_plus := 0 }

/-- ReflectAmm::get_rate_for_input_mint of lib.rs: selects the cached
rate by comparing the input mint against the two supported mint
constants; any other mint is the "Invalid input mint" error. -/
def ReflectAmm.get_rate_for_input_mint (self : ReflectAmm) (input_mint : Pubkey) :
    Except AmmError Nat :=
  if input_mint = usdc_mint.ID then .ok self.rate_100_usdc
  else if input_mint = usdc_plus_mint.ID then .ok self.rate_100_usdc_plus
  else .error .invalidInputMint

/-- ReflectAmm::quote of lib.rs. -/
def ReflectAmm.quote (self : ReflectAmm) (quote_params : QuoteParams) :
    Except AmmError Quote :=
  match self.get_rate_for_input_mint quote_params.input_mint with
  | .error e => .error e
  | .ok rate =>
    match quote_params.swap_mode with
    | .ExactIn =>
      match calculate_exact_in quote_params.amount rate with
      | .error e => .error e
      | .ok out =>
        .ok { in_amount := quote_params.amount, out_amount := out,
              fee_amount := 0, fee_mint := quote_params.input_mint, fee_pct := 0 }
    | .ExactOut =>
      match calculate_exact_out quote_params.amount rate with
      | .error e => .error e
      | .ok inp =>
        .ok { in_amount := inp, out_amount := quote_params.amount,
              fee_amount := 0, fee_mint := quote_params.input_mint, fee_pct := 0 }

/-- solana_sdk AccountMeta. -/
structure AccountMeta where
  pubkey : Pubkey
  is_signer : Bool
  is_writable : Bool
  deriving DecidableEq

/-- AccountMeta::new: writable. -/
def AccountMeta.new (pubkey : Pubkey) (signer : Bool) : AccountMeta :=
  { pubkey := pubkey, is_signer := signer, is_writable := true }

/-- AccountMeta::new_readonly: not writable. -/
def AccountMeta.new_readonly (pubkey : Pubkey) (signer : Bool) : AccountMeta :=
  { pubkey := pubkey, is_signer := signer, is_writable := false }

/-- ReflectSwap of lib.rs: the inputs of the account-metadata table. -/
structure ReflectSwap where
  user : Pubkey
  user_receipt_ata : Pubkey
  user_usdc_ata : Pubkey
  main : Pubkey
  usdc_controller : Pubkey
  admin_permissions : Pubkey
  controller_usdc_ata : Pubkey
  receipt_mint : Pubkey
  drift_program : Pubkey
  drift_state : Pubkey
  drift_user_stats : Pubkey
  referrer_user_stats : Pubkey
  referrer_user : Pubkey
  drift_user_account : Pubkey
  drift_spot_market_vault : Pubkey
  drift_vault : Pubkey
  usdc_oracle : Pubkey
  drift_usdc_spot_market : Pubkey
  deriving DecidableEq

/-- The 21-entry vector built by TryFrom<ReflectSwap> for Vec<AccountMeta>
in lib.rs, in source order. -/
def ReflectSwap.account_metas (swap : ReflectSwap) : List AccountMeta :=
  [ AccountMeta.new swap.user true,
    AccountMeta.new swap.main false,
    AccountMeta.new swap.usdc_controller false,
    AccountMeta.new_readonly swap.admin_permissions false,
    AccountMeta.new swap.user_receipt_ata false,
    AccountMeta.new swap.user_usdc_ata false,
    AccountMeta.new swap.controller_usdc_ata false,
    AccountMeta.new swap.receipt_mint false,
    AccountMeta.new_readonly swap.drift_program false,
    AccountMeta.new swap.drift_state false,
    AccountMeta.new swap.drift_user_stats false,
    AccountMeta.new swap.referrer_user_stats false,
    AccountMeta.new swap.referrer_user false,
    AccountMeta.new swap.drift_user_account false,
    AccountMeta.new swap.drift_spot_market_vault false,
    AccountMeta.new swap.drift_vault false,
    AccountMeta.new_readonly token_program.ID false,
    AccountMeta.new_readonly system_program.ID false,
    AccountMeta.new_readonly sysvar_clock.ID false,
    AccountMeta.new swap.usdc_oracle false,
    AccountMeta.new swap.drift_usdc_spot_market false ]

/-- The TryFrom conversion of lib.rs: it wraps the fixed vector in Ok and
has no failing branch. -/
def ReflectSwap.try_into (swap : ReflectSwap) : Except AmmError (List AccountMeta) :=
  .ok swap.account_metas

/-- Swap tag of the swap module: the variant named by
get_swap_and_account_metas. The swap.rs module itself is not under src.
Modelled from the spec: a venue-tag identifying which on-chain
instruction variant applies. -/
inductive Swap where
  | ReflectS1 : Swap
  deriving DecidableEq

/-- SwapAndAccountMetas of lib.rs. -/
structure SwapAndAccountMetas where
  swap : Swap
  account_metas : List AccountMeta
  deriving DecidableEq

/-- SwapParams of lib.rs, restricted to its plain-data fields. The
referrer map reference is omitted: ReflectAmm::get_swap_and_account_metas
destructures only the two mints, the two token accounts and the
authority. -/
structure SwapParams where
  swap_mode : SwapMode
  in_amount : Nat
  out_amount : Nat
  source_mint : Pubkey
  destination_mint : Pubkey
  source_token_account : Pubkey
  destination_token_account : Pubkey
  token_transfer_authority : Pubkey
  jupiter_program_id : Pubkey
  missing_dynamic_accounts_as_default : Bool
  deriving DecidableEq

/-- The user_receipt_ata chosen by get_swap_and_account_metas: the
destination token account on a deposit (source mint = USDC), the source
token account otherwise. -/
def resolved_user_receipt_ata (p : SwapParams) : Pubkey :=
  if p.source_mint = usdc_mint.ID then p.destination_token_account
  else p.source_token_account

/-- The user_usdc_ata chosen by get_swap_and_account_metas: the source
token account on a deposit (source mint = USDC), the destination token
account otherwise. -/
def resolved_user_usdc_ata (p : SwapParams) : Pubkey :=
  if p.source_mint = usdc_mint.ID then p.source_token_account
  else p.destination_token_account

/-- The ReflectSwap literal built inside get_swap_and_account_metas,
factored out so the theorems can name the emitted list. -/
def reflect_swap_of (self : ReflectAmm) (p : SwapParams) : ReflectSwap :=
  { user := p.token_transfer_authority
    user_receipt_ata := resolved_user_receipt_ata p
    user_usdc_ata := resolved_user_usdc_ata p
    main := self.main
    usdc_controller := self.usdc_plus_controller
    admin_permissions := self.admin_permissions
    controller_usdc_ata := self.controller_usdc_ata
    receipt_mint := self.usdc_plus_mint
    drift_program := self.drift_program
    drift_state := self.drift_state
    drift_user_stats := self.drift_user_stats
    referrer_user_stats := self.referrer_user_stats
    referrer_user := self.referrer_user
    drift_user_account := self.usdc_plus_drift_user_acc
    drift_spot_market_vault := self.drift_spot_market_vault
    drift_vault := self.drift_vault
    usdc_oracle := self.usdc_oracle
    drift_usdc_spot_market := self.drift_usdc_spot_market }

/-- ReflectAmm::get_swap_and_account_metas of lib.rs: validate the mint
pair against the two supported mint constants, pick the token-account
roles by direction, emit the fixed table. -/
def ReflectAmm.get_swap_and_account_metas (self : ReflectAmm) (swap_params : SwapParams) :
    Except AmmError SwapAndAccountMetas :=
  if (swap_params.source_mint = usdc_mint.ID ∧
        swap_params.destination_mint = usdc_plus_mint.ID) ∨
     (swap_params.source_mint = usdc_plus_mint.ID ∧
        swap_params.destination_mint = usdc_mint.ID) then
    match (reflect_swap_of self swap_params).try_into with
    | .error e => .error e
    | .ok metas => .ok { swap := Swap.ReflectS1, account_metas := metas }
  else
    .error .invalidMintPair

/-- Account data of an address, as handed to update: a byte buffer. -/
abbrev AccountMap := Pubkey → Option (List Nat)

/-- Signature of the external usdc_plus_exchange routines consumed by
update: four account byte buffers and a reference amount, returning a
u64 rate or an upstream error. The routines are outside this crate and
are therefore parameters of the model. -/
abbrev ExchangeRateFn := List Nat → List Nat → List Nat → List Nat → Nat → Except AmmError Nat

/-- try_get_account_data of lib.rs. -/
def try_get_account_data (account_map : AccountMap) (address : Pubkey) :
    Except AmmError (List Nat) :=
  match account_map address with
  | some data => .ok data
  | none => .error .accountNotFound

/-- The four account reads at the top of ReflectAmm::update, in source
order; they all happen before any field assignment. -/
structure UpdateAccounts where
  usdc_plus_controller_data : List Nat
  drift_usdc_spot_market_data : List Nat
  usdc_plus_drift_user_acc_data : List Nat
  usdc_plus_mint_data : List Nat
  deriving DecidableEq

/-- The read prefix of ReflectAmm::update. -/
def read_update_accounts (account_map : AccountMap) (self : ReflectAmm) :
    Except AmmError UpdateAccounts := do
  let usdc_plus_mint_data ← try_get_account_data account_map self.usdc_plus_mint
  let usdc_plus_drift_user_acc_data ← try_get_account_data account_map self.usdc_plus_drift_user_acc
  let drift_usdc_spot_market_data ← try_get_account_data account_map self.drift_usdc_spot_market
  let usdc_plus_controller_data ← try_get_account_data account_map self.usdc_plus_controller
  .ok { usdc_plus_controller_data := usdc_plus_controller_data
        drift_usdc_spot_market_data := drift_usdc_spot_market_data
        usdc_plus_drift_user_acc_data := usdc_plus_drift_user_acc_data
        usdc_plus_mint_data := usdc_plus_mint_data }

/-- ReflectAmm::update of lib.rs, with the two external rate routines as
parameters. The first component of the returned pair is the state of
self after the call (the receiver is a mutable reference in the source,
so assignments made before a failing step survive the failure); the
second is the returned Result. The assignment to rate_100_usdc happens
in program order before the second routine runs, exactly as in the
source. -/
def ReflectAmm.update (self : ReflectAmm)
    (exchange_rate_usdc_input exchange_rate_receipt_input : ExchangeRateFn)
    (account_map : AccountMap) : ReflectAmm × Except AmmError Unit :=
  match read_update_accounts account_map self with
  | .error e => (self, .error e)
  | .ok d =>
    match exchange_rate_usdc_input d.usdc_plus_controller_data
        d.drift_usdc_spot_market_data d.usdc_plus_drift_user_acc_data
        d.usdc_plus_mint_data 100000000 with
    | .error e => (self, .error e)
    | .ok usdc_plus_returned =>
      let self1 := { self with rate_100_usdc := usdc_plus_returned }
      match exchange_rate_receipt_input d.usdc_plus_controller_data
          d.drift_usdc_spot_market_data d.usdc_plus_drift_user_acc_data
          d.usdc_plus_mint_data 100000000 with
      | .error e => (self1, .error e)
      | .ok usdc_returned =>
        ({ self1 with rate_100_usdc_plus := usdc_returned }, .ok ())

/-- Decide whether an Except value is an Ok. -/
def ex_is_ok {ε α : Type} : Except ε α → Bool
  | .ok _ => true
  | .error _ => false

-- Concrete adapter states used by the concrete-input theorems.

/-- A fresh adapter whose USDC-input rate is the 99_500_000 of the
concrete spec scenario. -/
def amm_rate_99_5 : ReflectAmm := { ReflectAmm.new with rate_100_usdc := 99500000 }

/-- A fresh adapter whose USDC-input rate is u64::MAX. -/
def amm_rate_u64_max : ReflectAmm :=
  { ReflectAmm.new with rate_100_usdc := 18446744073709551615 }

/-- A fresh adapter whose USDC-input rate is 1. -/
def amm_rate_one : ReflectAmm := { ReflectAmm.new with rate_100_usdc := 1 }

/-- A fresh adapter whose USDC-input rate is 10^18. -/
def amm_rate_e18 : ReflectAmm :=
  { ReflectAmm.new with rate_100_usdc := 1000000000000000000 }

-- Arithmetic helper lemmas.

lemma u64_size_eq : U64_SIZE = 18446744073709551616 := by norm_num [U64_SIZE]

lemma u128_size_eq :
    U128_SIZE = 340282366920938463463374607431768211456 := by norm_num [U128_SIZE]

lemma mul_lt_u128 {a b : Nat} (ha : a < U64_SIZE) (hb : b < U64_SIZE) :
    a * b < U128_SIZE := by
  calc a * b < U64_SIZE * U64_SIZE :=
        Nat.mul_lt_mul_of_lt_of_le ha (Nat.le_of_lt hb) (by norm_num [U64_SIZE])
    _ = U128_SIZE := by unfold U64_SIZE U128_SIZE; rw [← pow_add]

lemma checked_mul_u128_eq {a b : Nat} (h : a * b < U128_SIZE) :
    checked_mul_u128 a b = some (a * b) := by
  unfold checked_mul_u128; rw [if_pos h]

lemma checked_add_u128_eq {a b : Nat} (h : a + b < U128_SIZE) :
    checked_add_u128 a b = some (a + b) := by
  unfold checked_add_u128; rw [if_pos h]

lemma checked_div_u128_base (a : Nat) :
    checked_div_u128 a BASE_AMOUNT = some (a / BASE_AMOUNT) := by
  unfold checked_div_u128 BASE_AMOUNT; norm_num

lemma checked_div_u128_pos {r : Nat} (a : Nat) (hr : 0 < r) :
    checked_div_u128 a r = some (a / r) := by
  unfold checked_div_u128; rw [if_neg (Nat.pos_iff_ne_zero.mp hr)]

lemma calculate_exact_in_eq (a r : Nat) (ha : a < U64_SIZE) (hr : r < U64_SIZE) :
    calculate_exact_in a r = .ok (a * r / BASE_AMOUNT % U64_SIZE) := by
  simp only [calculate_exact_in, checked_mul_u128_eq (mul_lt_u128 ha hr),
    checked_div_u128_base]

lemma base_amount_lt_u64 : BASE_AMOUNT < U64_SIZE := by
  rw [u64_size_eq]; norm_num [BASE_AMOUNT]

lemma calculate_exact_out_eq (a r : Nat) (hr0 : 0 < r) (ha : a < U64_SIZE)
    (hr : r < U64_SIZE) :
    calculate_exact_out a r = .ok ((a * BASE_AMOUNT + (r - 1)) / r % U64_SIZE) := by
  have hmul : a * BASE_AMOUNT < U128_SIZE := mul_lt_u128 ha base_amount_lt_u64
  have hadd : a * BASE_AMOUNT + (r - 1) < U128_SIZE := by
    have h1 : a * BASE_AMOUNT < U128_SIZE / 2 := by
      calc a * BASE_AMOUNT < U64_SIZE * BASE_AMOUNT :=
            Nat.mul_lt_mul_of_lt_of_le ha (Nat.le_refl _) (by norm_num [BASE_AMOUNT])
        _ < U128_SIZE / 2 := by rw [u64_size_eq, u128_size_eq]; norm_num [BASE_AMOUNT]
    have h2 : r - 1 < U128_SIZE / 2 := by
      have : r - 1 < U64_SIZE := Nat.lt_of_le_of_lt (Nat.sub_le r 1) hr
      calc r - 1 < U64_SIZE := this
        _ < U128_SIZE / 2 := by rw [u64_size_eq, u128_size_eq]; norm_num
    calc a * BASE_AMOUNT + (r - 1) < U128_SIZE / 2 + U128_SIZE / 2 :=
          Nat.add_lt_add h1 h2
      _ ≤ U128_SIZE := by rw [u128_size_eq]
  simp only [calculate_exact_out, checked_mul_u128_eq hmul,
    if_neg (Nat.pos_iff_ne_zero.mp hr0), checked_add_u128_eq hadd,
    checked_div_u128_pos _ hr0]

/-- The round-up division (x + (r - 1)) / r used by calculate_exact_out,
named for readability of the statements. -/
def ceil_div (x r : Nat) : Nat := (x + (r - 1)) / r

/-- Rounding up guarantees enough: x is at most the ceiling-divided value
multiplied back. -/
lemma le_ceil_div_mul (x r : Nat) (hr : 0 < r) : x ≤ (x + (r - 1)) / r * r := by
  rcases Nat.eq_zero_or_pos x with hx | _
  · simp [hx]
  have h := Nat.div_add_mod (x + (r - 1)) r
  have hm : (x + (r - 1)) % r < r := Nat.mod_lt _ hr
  rw [Nat.mul_comm]
  set q := (x + (r - 1)) / r with hq
  set m := (x + (r - 1)) % r with hm2
  set A := r * q with hA
  omega

-- Quote evaluation lemmas, shared by the claims about the arithmetic.

lemma quote_exact_in_eq (self : ReflectAmm) (p : QuoteParams) (r : Nat)
    (hrate : self.get_rate_for_input_mint p.input_mint = .ok r)
    (ha : p.amount < U64_SIZE) (hr : r < U64_SIZE)
    (hmode : p.swap_mode = SwapMode.ExactIn) :
    self.quote p =
      .ok ⟨p.amount, p.amount * r / BASE_AMOUNT % U64_SIZE, 0, p.input_mint, 0⟩ := by
  simp only [ReflectAmm.quote, hrate, hmode, calculate_exact_in_eq p.amount r ha hr]

lemma quote_exact_out_eq (self : ReflectAmm) (p : QuoteParams) (r : Nat)
    (hrate : self.get_rate_for_input_mint p.input_mint = .ok r)
    (hr0 : 0 < r) (ha : p.amount < U64_SIZE) (hr : r < U64_SIZE)
    (hmode : p.swap_mode = SwapMode.ExactOut) :
    self.quote p =
      .ok ⟨(p.amount * BASE_AMOUNT + (r - 1)) / r % U64_SIZE, p.amount, 0,
        p.input_mint, 0⟩ := by
  simp only [ReflectAmm.quote, hrate, hmode,
    calculate_exact_out_eq p.amount r hr0 ha hr]

lemma calculate_exact_in_error_shape (a r : Nat) (e : AmmError)
    (h : calculate_exact_in a r = .error e) :
    e = AmmError.overflowInQuote ∨ e = AmmError.divisionError := by
  unfold calculate_exact_in at h
  split at h
  · injection h with h
    exact Or.inl h.symm
  · split at h
    · injection h with h
      exact Or.inr h.symm
    · simp at h

lemma calculate_exact_out_error_shape (a r : Nat) (e : AmmError)
    (h : calculate_exact_out a r = .error e) :
    e = AmmError.overflowInQuote ∨ e = AmmError.rateUnderflow ∨
      e = AmmError.divisionError := by
  unfold calculate_exact_out at h
  split at h
  · injection h with h
    exact Or.inl h.symm
  · split at h
    · injection h with h
      exact Or.inr (Or.inl h.symm)
    · split at h
      · injection h with h
        exact Or.inl h.symm
      · split at h
        · injection h with h
          exact Or.inr (Or.inr h.symm)
        · simp at h

/-- Once a rate was selected, quote can no longer fail with the
invalid-input-mint error: the only remaining failure sites are the
arithmetic routines. -/
lemma quote_error_not_input_mint (self : ReflectAmm) (p : QuoteParams) (r : Nat)
    (hrate : self.get_rate_for_input_mint p.input_mint = .ok r) :
    self.quote p ≠ .error AmmError.invalidInputMint := by
  unfold ReflectAmm.quote
  rw [hrate]
  cases hmode : p.swap_mode
  case ExactIn =>
    rcases hcalc : calculate_exact_in p.amount r with e | v
    · simp only [hcalc]
      intro hx
      injection hx with hx
      rcases calculate_exact_in_error_shape p.amount r e hcalc with h | h <;>
        simp [h] at hx
    · simp [hcalc]
  case ExactOut =>
    rcases hcalc : calculate_exact_out p.amount r with e | v
    · simp only [hcalc]
      intro hx
      injection hx with hx
      rcases calculate_exact_out_error_shape p.amount r e hcalc with h | h | h <;>
        simp [h] at hx
    · simp [hcalc]

/-- C1 (amended): for every u64 amount and every positive u64 rate cached
for the input asset, quote in ExactIn mode succeeds, returns the amount
unchanged as in_amount, and returns out_amount equal to
floor(amount * rate / BASE_AMOUNT) reduced modulo 2^64 by the final u64
cast; the modulo reduction is the identity whenever the exact quotient
fits in a u64. -/
theorem C1_exact_in_quote (self : ReflectAmm) (p : QuoteParams) (r : Nat)
    (hrate : self.get_rate_for_input_mint p.input_mint = .ok r)
    (_hr0 : 0 < r) (ha : p.amount < U64_SIZE) (hr : r < U64_SIZE)
    (hmode : p.swap_mode = SwapMode.ExactIn) :
    self.quote p =
      .ok ⟨p.amount, p.amount * r / BASE_AMOUNT % U64_SIZE, 0, p.input_mint, 0⟩ ∧
    (p.amount * r / BASE_AMOUNT < U64_SIZE →
      p.amount * r / BASE_AMOUNT % U64_SIZE = p.amount * r / BASE_AMOUNT) :=
  ⟨quote_exact_in_eq self p r hrate ha hr hmode, fun h => Nat.mod_eq_of_lt h⟩

/-- C1 witness: the spec scenario rate 99_500_000 with input 100_000_000
yields output 99_500_000, input unchanged, fee zero. -/
theorem C1_exact_in_quote_witness :
    amm_rate_99_5.quote
        { amount := 100000000, input_mint := usdc_mint.ID,
          output_mint := usdc_plus_mint.ID, swap_mode := SwapMode.ExactIn } =
      .ok ⟨100000000, 99500000, 0, usdc_mint.ID, 0⟩ :=
  (C1_exact_in_quote amm_rate_99_5
    { amount := 100000000, input_mint := usdc_mint.ID,
      output_mint := usdc_plus_mint.ID, swap_mode := SwapMode.ExactIn }
    99500000 rfl (by decide) (by decide) (by decide) rfl).1

/-- C1 counterexample: with rate u64::MAX and amount 200_000_000 the
exact quotient floor(amount * rate / BASE_AMOUNT) = 36893488147419103230
exceeds u64::MAX; quote still succeeds and returns the quotient reduced
modulo 2^64, which differs from the exact quotient, refuting the claim
that out_amount always equals the exact floor. -/
theorem C1_truncation_counterexample :
    amm_rate_u64_max.quote
        { amount := 200000000, input_mint := usdc_mint.ID,
          output_mint := usdc_plus_mint.ID, swap_mode := SwapMode.ExactIn } =
      .ok ⟨200000000, 18446744073709551614, 0, usdc_mint.ID, 0⟩ ∧
    (18446744073709551614 : Nat) ≠ 200000000 * 18446744073709551615 / 100000000 :=
  ⟨rfl, by decide⟩

/-- C2 (amended): for every u64 amount and every positive u64 rate cached
for the input asset, quote in ExactOut mode succeeds, returns the amount
unchanged as out_amount, and returns in_amount equal to
ceil(amount * BASE_AMOUNT / rate) (computed as the round-up expression
(amount * BASE_AMOUNT + rate - 1) / rate) reduced modulo 2^64 by the
final u64 cast. Whenever the exact ceiling fits in a u64 the reduction
is the identity, the resolved input times the rate covers the requested
output in exact arithmetic, and quoting ExactIn on the resolved input
returns at least the requested amount whenever that ExactIn quotient
itself fits in a u64. -/
theorem C2_exact_out_quote (self : ReflectAmm) (p : QuoteParams) (r : Nat)
    (hrate : self.get_rate_for_input_mint p.input_mint = .ok r)
    (hr0 : 0 < r) (ha : p.amount < U64_SIZE) (hr : r < U64_SIZE)
    (hmode : p.swap_mode = SwapMode.ExactOut) :
    self.quote p =
      .ok ⟨ceil_div (p.amount * BASE_AMOUNT) r % U64_SIZE, p.amount, 0,
        p.input_mint, 0⟩ ∧
    (ceil_div (p.amount * BASE_AMOUNT) r < U64_SIZE →
      ceil_div (p.amount * BASE_AMOUNT) r % U64_SIZE =
        ceil_div (p.amount * BASE_AMOUNT) r) ∧
    (ceil_div (p.amount * BASE_AMOUNT) r < U64_SIZE →
      self.quote { p with amount := ceil_div (p.amount * BASE_AMOUNT) r, swap_mode := SwapMode.ExactIn } =
        .ok ⟨ceil_div (p.amount * BASE_AMOUNT) r,
          ceil_div (p.amount * BASE_AMOUNT) r * r / BASE_AMOUNT % U64_SIZE, 0,
          p.input_mint, 0⟩ ∧
      p.amount ≤ ceil_div (p.amount * BASE_AMOUNT) r * r / BASE_AMOUNT ∧
      (ceil_div (p.amount * BASE_AMOUNT) r * r / BASE_AMOUNT < U64_SIZE →
        p.amount ≤
          ceil_div (p.amount * BASE_AMOUNT) r * r / BASE_AMOUNT % U64_SIZE)) := by
  refine ⟨quote_exact_out_eq self p r hrate hr0 ha hr hmode,
    fun h => Nat.mod_eq_of_lt h, fun hfit => ?_⟩
  have hle : p.amount ≤ ceil_div (p.amount * BASE_AMOUNT) r * r / BASE_AMOUNT := by
    have hbase : 0 < BASE_AMOUNT := by norm_num [BASE_AMOUNT]
    exact (Nat.le_div_iff_mul_le hbase).mpr
      (le_ceil_div_mul (p.amount * BASE_AMOUNT) r hr0)
  have hq := quote_exact_in_eq self
    { p with amount := ceil_div (p.amount * BASE_AMOUNT) r, swap_mode := SwapMode.ExactIn }
    r hrate hfit hr rfl
  exact ⟨hq, hle, fun hfit2 => by rw [Nat.mod_eq_of_lt hfit2]; exact hle⟩

/-- C2 witness: the spec scenario rate 99_500_000 with requested output
50_000_000 resolves to input 50_251_257, and in exact arithmetic that
input converts back to at least the requested 50_000_000. -/
theorem C2_exact_out_quote_witness :
    amm_rate_99_5.quote
        { amount := 50000000, input_mint := usdc_mint.ID,
          output_mint := usdc_plus_mint.ID, swap_mode := SwapMode.ExactOut } =
      .ok ⟨50251257, 50000000, 0, usdc_mint.ID, 0⟩ ∧
    (50000000 : Nat) ≤ 50251257 * 99500000 / 100000000 :=
  ⟨(C2_exact_out_quote amm_rate_99_5
      { amount := 50000000, input_mint := usdc_mint.ID,
        output_mint := usdc_plus_mint.ID, swap_mode := SwapMode.ExactOut }
      99500000 rfl (by decide) (by decide) (by decide) rfl).1,
   ((C2_exact_out_quote amm_rate_99_5
      { amount := 50000000, input_mint := usdc_mint.ID,
        output_mint := usdc_plus_mint.ID, swap_mode := SwapMode.ExactOut }
      99500000 rfl (by decide) (by decide) (by decide) rfl).2.2 (by decide)).2.1⟩

/-- C2 counterexample: with rate 1 and amount u64::MAX the exact ceiling
ceil(amount * BASE_AMOUNT / 1) = 1844674407370955161500000000 exceeds
u64::MAX; quote still succeeds and returns that value reduced modulo
2^64, which differs from the exact ceiling, refuting the claim that
in_amount always equals the exact ceiling. -/
theorem C2_truncation_counterexample :
    amm_rate_one.quote
        { amount := 18446744073709551615, input_mint := usdc_mint.ID,
          output_mint := usdc_plus_mint.ID, swap_mode := SwapMode.ExactOut } =
      .ok ⟨18446744073609551616, 18446744073709551615, 0, usdc_mint.ID, 0⟩ ∧
    (18446744073609551616 : Nat) ≠
      (18446744073709551615 * 100000000 + (1 - 1)) / 1 :=
  ⟨rfl, by decide⟩

/-- C3: quoting on a freshly constructed adapter, whose cached rate for
the USDC direction is 0, does not fail with a rate-unavailable error.
In ExactIn mode it silently succeeds with a zero out_amount, and in
ExactOut mode the round-up expression (rate as u128 - 1) underflows (an
abort in debug builds; in release builds the wrapped value makes the
subsequent checked step fail with the overflow error) — the code has no
RateUnavailable path at all, contradicting the claim. -/
theorem C3_rate_zero_behavior :
    ReflectAmm.new.quote
        { amount := 1000000, input_mint := usdc_mint.ID,
          output_mint := usdc_plus_mint.ID, swap_mode := SwapMode.ExactIn } =
      .ok ⟨1000000, 0, 0, usdc_mint.ID, 0⟩ ∧
    ReflectAmm.new.quote
        { amount := 1000000, input_mint := usdc_mint.ID,
          output_mint := usdc_plus_mint.ID, swap_mode := SwapMode.ExactOut } =
      .error AmmError.rateUnderflow :=
  ⟨rfl, rfl⟩

/-- C5 counterexample: on rate 99_500_000, quote(ExactOut, 50_000_000)
returns input 50_251_257 — the true ceiling of
50_000_000 * 100_000_000 / 99_500_000 — not the 50_251_256 stated by the
claim. -/
theorem C5_scenario_counterexample :
    amm_rate_99_5.quote
        { amount := 50000000, input_mint := usdc_mint.ID,
          output_mint := usdc_plus_mint.ID, swap_mode := SwapMode.ExactOut } =
      .ok ⟨50251257, 50000000, 0, usdc_mint.ID, 0⟩ ∧
    (50251257 : Nat) ≠ 50251256 :=
  ⟨rfl, by decide⟩

/-- C5 (amended): with cached rate 99_500_000, quote(ExactIn,
100_000_000) returns output 99_500_000, input unchanged and fee 0, and
quote(ExactOut, 50_000_000) returns input 50_251_257 and output
unchanged 50_000_000. -/
theorem C5_scenario_amended :
    amm_rate_99_5.quote
        { amount := 100000000, input_mint := usdc_mint.ID,
          output_mint := usdc_plus_mint.ID, swap_mode := SwapMode.ExactIn } =
      .ok ⟨100000000, 99500000, 0, usdc_mint.ID, 0⟩ ∧
    amm_rate_99_5.quote
        { amount := 50000000, input_mint := usdc_mint.ID,
          output_mint := usdc_plus_mint.ID, swap_mode := SwapMode.ExactOut } =
      .ok ⟨50251257, 50000000, 0, usdc_mint.ID, 0⟩ :=
  ⟨rfl, rfl⟩

/-- Shared evaluation lemma: on a valid mint pair the planner succeeds
with the fixed table built from reflect_swap_of. -/
lemma get_swap_and_account_metas_ok (self : ReflectAmm) (p : SwapParams)
    (h : (p.source_mint = usdc_mint.ID ∧ p.destination_mint = usdc_plus_mint.ID) ∨
         (p.source_mint = usdc_plus_mint.ID ∧ p.destination_mint = usdc_mint.ID)) :
    self.get_swap_and_account_metas p =
      .ok { swap := Swap.ReflectS1,
            account_metas := (reflect_swap_of self p).account_metas } := by
  unfold ReflectAmm.get_swap_and_account_metas
  rw [if_pos h]
  rfl

/-- C4: for every valid mint pair in either direction,
get_swap_and_account_metas succeeds with the ReflectS1 tag and the fixed
21-entry table: entry 0 is the transfer authority, signer and writable;
the signer flags are true only at entry 0; the writable flags are false
exactly at indices 3 (admin permissions), 8 (drift program), 16 (token
program), 17 (system program) and 18 (clock sysvar); and the two
trailing entries 19 and 20 are the oracle account and the drift USDC
spot-market account, both writable and non-signer. -/
theorem C4_plan_layout (self : ReflectAmm) (p : SwapParams)
    (h : (p.source_mint = usdc_mint.ID ∧ p.destination_mint = usdc_plus_mint.ID) ∨
         (p.source_mint = usdc_plus_mint.ID ∧ p.destination_mint = usdc_mint.ID)) :
    self.get_swap_and_account_metas p =
      .ok { swap := Swap.ReflectS1,
            account_metas := (reflect_swap_of self p).account_metas } ∧
    (reflect_swap_of self p).account_metas.length = 21 ∧
    (reflect_swap_of self p).account_metas.head? =
      some ⟨p.token_transfer_authority, true, true⟩ ∧
    (reflect_swap_of self p).account_metas.map AccountMeta.is_signer =
      [true, false, false, false, false, false, false, false, false, false, false,
       false, false, false, false, false, false, false, false, false, false] ∧
    (reflect_swap_of self p).account_metas.map AccountMeta.is_writable =
      [true, true, true, false, true, true, true, true, false, true, true,
       true, true, true, true, true, false, false, false, true, true] ∧
    (reflect_swap_of self p).account_metas[19]? =
      some ⟨self.usdc_oracle, false, true⟩ ∧
    (reflect_swap_of self p).account_metas[20]? =
      some ⟨self.drift_usdc_spot_market, false, true⟩ := by
  exact ⟨get_swap_and_account_metas_ok self p h, rfl, rfl, rfl, rfl, rfl, rfl⟩

/-- C4 witness: a concrete deposit-direction plan request. -/
theorem C4_plan_layout_witness :
    ReflectAmm.new.get_swap_and_account_metas
        { swap_mode := SwapMode.ExactIn, in_amount := 100000000,
          out_amount := 99500000, source_mint := usdc_mint.ID,
          destination_mint := usdc_plus_mint.ID, source_token_account := 101,
          destination_token_account := 102, token_transfer_authority := 100,
          jupiter_program_id := 103, missing_dynamic_accounts_as_default := false } =
      .ok { swap := Swap.ReflectS1,
            account_metas := (reflect_swap_of ReflectAmm.new
              { swap_mode := SwapMode.ExactIn, in_amount := 100000000,
                out_amount := 99500000, source_mint := usdc_mint.ID,
                destination_mint := usdc_plus_mint.ID, source_token_account := 101,
                destination_token_account := 102, token_transfer_authority := 100,
                jupiter_program_id := 103,
                missing_dynamic_accounts_as_default := false }).account_metas } :=
  (C4_plan_layout ReflectAmm.new
    { swap_mode := SwapMode.ExactIn, in_amount := 100000000,
      out_amount := 99500000, source_mint := usdc_mint.ID,
      destination_mint := usdc_plus_mint.ID, source_token_account := 101,
      destination_token_account := 102, token_transfer_authority := 100,
      jupiter_program_id := 103, missing_dynamic_accounts_as_default := false }
    (Or.inl ⟨rfl, rfl⟩)).1

/-- C6: get_swap_and_account_metas succeeds exactly when the ordered mint
pair is (USDC, USDC+) or (USDC+, USDC); every other combination fails,
and fails precisely with the invalid-mint-pair error — validation is the
only failure path. -/
theorem C6_plan_pair_validation (self : ReflectAmm) (p : SwapParams) :
    (ex_is_ok (self.get_swap_and_account_metas p) = true ↔
      ((p.source_mint = usdc_mint.ID ∧ p.destination_mint = usdc_plus_mint.ID) ∨
       (p.source_mint = usdc_plus_mint.ID ∧ p.destination_mint = usdc_mint.ID))) ∧
    (self.get_swap_and_account_metas p = .error AmmError.invalidMintPair ↔
      ¬ ((p.source_mint = usdc_mint.ID ∧ p.destination_mint = usdc_plus_mint.ID) ∨
         (p.source_mint = usdc_plus_mint.ID ∧ p.destination_mint = usdc_mint.ID))) := by
  by_cases h : (p.source_mint = usdc_mint.ID ∧ p.destination_mint = usdc_plus_mint.ID) ∨
      (p.source_mint = usdc_plus_mint.ID ∧ p.destination_mint = usdc_mint.ID)
  · rw [get_swap_and_account_metas_ok self p h]
    simp [ex_is_ok, h]
  · have h1 : self.get_swap_and_account_metas p = .error AmmError.invalidMintPair := by
      unfold ReflectAmm.get_swap_and_account_metas
      rw [if_neg h]
    rw [h1]
    simp [ex_is_ok, h]

/-- C6 witness: the same-mint pair (USDC, USDC) is rejected with the
invalid-mint-pair error. -/
theorem C6_plan_pair_validation_witness :
    ReflectAmm.new.get_swap_and_account_metas
        { swap_mode := SwapMode.ExactIn, in_amount := 100000000,
          out_amount := 100000000, source_mint := usdc_mint.ID,
          destination_mint := usdc_mint.ID, source_token_account := 101,
          destination_token_account := 102, token_transfer_authority := 100,
          jupiter_program_id := 103, missing_dynamic_accounts_as_default := false } =
      .error AmmError.invalidMintPair :=
  (C6_plan_pair_validation ReflectAmm.new
    { swap_mode := SwapMode.ExactIn, in_amount := 100000000,
      out_amount := 100000000, source_mint := usdc_mint.ID,
      destination_mint := usdc_mint.ID, source_token_account := 101,
      destination_token_account := 102, token_transfer_authority := 100,
      jupiter_program_id := 103,
      missing_dynamic_accounts_as_default := false }).2.mpr (by decide)

/-- C7: the trade direction is fixed by whether the source mint is the
USDC (base) mint, and it alone decides the user token-account roles in
the emitted list: on a deposit (source = base) the source token account
sits in the user USDC slot, index 5, and the destination token account
in the user receipt slot, index 4; on a withdrawal (source = receipt)
the two roles are swapped. -/
theorem C7_user_ata_roles (self : ReflectAmm) (p : SwapParams) :
    (p.source_mint = usdc_mint.ID ∧ p.destination_mint = usdc_plus_mint.ID →
      self.get_swap_and_account_metas p =
        .ok { swap := Swap.ReflectS1,
              account_metas := (reflect_swap_of self p).account_metas } ∧
      (reflect_swap_of self p).account_metas[5]? =
        some ⟨p.source_token_account, false, true⟩ ∧
      (reflect_swap_of self p).account_metas[4]? =
        some ⟨p.destination_token_account, false, true⟩) ∧
    (p.source_mint = usdc_plus_mint.ID ∧ p.destination_mint = usdc_mint.ID →
      self.get_swap_and_account_metas p =
        .ok { swap := Swap.ReflectS1,
              account_metas := (reflect_swap_of self p).account_metas } ∧
      (reflect_swap_of self p).account_metas[5]? =
        some ⟨p.destination_token_account, false, true⟩ ∧
      (reflect_swap_of self p).account_metas[4]? =
        some ⟨p.source_token_account, false, true⟩) := by
  constructor
  · intro h
    refine ⟨get_swap_and_account_metas_ok self p (Or.inl h), ?_, ?_⟩
    · simp [reflect_swap_of, ReflectSwap.account_metas, resolved_user_usdc_ata,
        AccountMeta.new, h.1]
    · simp [reflect_swap_of, ReflectSwap.account_metas, resolved_user_receipt_ata,
        AccountMeta.new, h.1]
  · intro h
    have hne : ¬ p.source_mint = usdc_mint.ID := by
      rw [h.1]; decide
    refine ⟨get_swap_and_account_metas_ok self p (Or.inr h), ?_, ?_⟩
    · simp [reflect_swap_of, ReflectSwap.account_metas, resolved_user_usdc_ata,
        AccountMeta.new, hne]
    · simp [reflect_swap_of, ReflectSwap.account_metas, resolved_user_receipt_ata,
        AccountMeta.new, hne]

/-- C7 witness: a concrete withdrawal-direction request places the
destination token account at index 5 and the source token account at
index 4. -/
theorem C7_user_ata_roles_witness :
    (reflect_swap_of ReflectAmm.new
      { swap_mode := SwapMode.ExactIn, in_amount := 100000000,
        out_amount := 99500000, source_mint := usdc_plus_mint.ID,
        destination_mint := usdc_mint.ID, source_token_account := 101,
        destination_token_account := 102, token_transfer_authority := 100,
        jupiter_program_id := 103,
        missing_dynamic_accounts_as_default := false }).account_metas[5]? =
      some ⟨102, false, true⟩ ∧
    (reflect_swap_of ReflectAmm.new
      { swap_mode := SwapMode.ExactIn, in_amount := 100000000,
        out_amount := 99500000, source_mint := usdc_plus_mint.ID,
        destination_mint := usdc_mint.ID, source_token_account := 101,
        destination_token_account := 102, token_transfer_authority := 100,
        jupiter_program_id := 103,
        missing_dynamic_accounts_as_default := false }).account_metas[4]? =
      some ⟨101, false, true⟩ :=
  ⟨((C7_user_ata_roles ReflectAmm.new
      { swap_mode := SwapMode.ExactIn, in_amount := 100000000,
        out_amount := 99500000, source_mint := usdc_plus_mint.ID,
        destination_mint := usdc_mint.ID, source_token_account := 101,
        destination_token_account := 102, token_transfer_authority := 100,
        jupiter_program_id := 103,
        missing_dynamic_accounts_as_default := false }).2 ⟨rfl, rfl⟩).2.1,
   ((C7_user_ata_roles ReflectAmm.new
      { swap_mode := SwapMode.ExactIn, in_amount := 100000000,
        out_amount := 99500000, source_mint := usdc_plus_mint.ID,
        destination_mint := usdc_mint.ID, source_token_account := 101,
        destination_token_account := 102, token_transfer_authority := 100,
        jupiter_program_id := 103,
        missing_dynamic_accounts_as_default := false }).2 ⟨rfl, rfl⟩).2.2⟩

-- Concrete update scenarios used by C8.

/-- An external rate routine that always returns the rate 5. -/
def exchange_const_five : ExchangeRateFn := fun _ _ _ _ _ => Except.ok 5

/-- An external rate routine that always fails upstream. -/
def exchange_upstream_failure : ExchangeRateFn :=
  fun _ _ _ _ _ => Except.error AmmError.upstream

/-- An account map under which every lookup succeeds. -/
def all_accounts_present : AccountMap := fun _ => some []

/-- An account map under which every lookup fails. -/
def no_accounts_present : AccountMap := fun _ => none

/-- C8 counterexample: when the first external rate routine succeeds and
the second fails, update returns an error yet the caller observes
rate_100_usdc already replaced by the new value: a replaced rate paired
with a stale one, refuting the claim that an erroring update leaves both
cached rates unchanged. -/
theorem C8_partial_update_counterexample :
    ReflectAmm.new.update exchange_const_five exchange_upstream_failure
        all_accounts_present =
      ({ ReflectAmm.new with rate_100_usdc := 5 }, Except.error AmmError.upstream) ∧
    ({ ReflectAmm.new with rate_100_usdc := 5 } : ReflectAmm).rate_100_usdc ≠
      ReflectAmm.new.rate_100_usdc :=
  ⟨rfl, by decide⟩

/-- C8 (amended): the complete error behavior of update. Errors raised
before the first rate assignment are atomic: when an account read fails,
or when the reads succeed but the first external rate routine fails,
update returns the error with the state exactly as it was before the
call, both rates included. But when the reads and the first routine
succeed and the second routine fails, update returns the error with
rate_100_usdc already replaced by the first routine's result while
rate_100_usdc_plus (and every other field) keeps its stale pre-call
value — the error path after the first assignment is not atomic. -/
theorem C8_update_error_paths (self : ReflectAmm) (f g : ExchangeRateFn)
    (account_map : AccountMap) :
    (∀ e : AmmError, read_update_accounts account_map self = .error e →
      self.update f g account_map = (self, .error e)) ∧
    (∀ (d : UpdateAccounts) (e : AmmError),
      read_update_accounts account_map self = .ok d →
      f d.usdc_plus_controller_data d.drift_usdc_spot_market_data
        d.usdc_plus_drift_user_acc_data d.usdc_plus_mint_data 100000000 = .error e →
      self.update f g account_map = (self, .error e)) ∧
    (∀ (d : UpdateAccounts) (r1 : Nat) (e : AmmError),
      read_update_accounts account_map self = .ok d →
      f d.usdc_plus_controller_data d.drift_usdc_spot_market_data
        d.usdc_plus_drift_user_acc_data d.usdc_plus_mint_data 100000000 = .ok r1 →
      g d.usdc_plus_controller_data d.drift_usdc_spot_market_data
        d.usdc_plus_drift_user_acc_data d.usdc_plus_mint_data 100000000 = .error e →
      self.update f g account_map =
        ({ self with rate_100_usdc := r1 }, .error e) ∧
      ({ self with rate_100_usdc := r1 } : ReflectAmm).rate_100_usdc_plus =
        self.rate_100_usdc_plus) := by
  refine ⟨fun e hread => ?_, fun d e hread hf => ?_, fun d r1 e hread hf hg => ⟨?_, rfl⟩⟩
  · simp only [ReflectAmm.update, hread]
  · simp only [ReflectAmm.update, hread, hf]
  · simp only [ReflectAmm.update, hread, hf, hg]

/-- C8 witness: all three error paths at concrete inputs — a failing
account read and a failing first routine leave the fresh adapter
unchanged, while a failing second routine leaves rate_100_usdc already
replaced by 5 with rate_100_usdc_plus stale. -/
theorem C8_update_error_paths_witness :
    ReflectAmm.new.update exchange_const_five exchange_upstream_failure
        no_accounts_present =
      (ReflectAmm.new, Except.error AmmError.accountNotFound) ∧
    ReflectAmm.new.update exchange_upstream_failure exchange_const_five
        all_accounts_present =
      (ReflectAmm.new, Except.error AmmError.upstream) ∧
    ReflectAmm.new.update exchange_const_five exchange_upstream_failure
        all_accounts_present =
      ({ ReflectAmm.new with rate_100_usdc := 5 }, Except.error AmmError.upstream) :=
  ⟨(C8_update_error_paths ReflectAmm.new exchange_const_five
      exchange_upstream_failure no_accounts_present).1
      AmmError.accountNotFound rfl,
   (C8_update_error_paths ReflectAmm.new exchange_upstream_failure
      exchange_const_five all_accounts_present).2.1 ⟨[], [], [], []⟩
      AmmError.upstream rfl rfl,
   ((C8_update_error_paths ReflectAmm.new exchange_const_five
      exchange_upstream_failure all_accounts_present).2.2 ⟨[], [], [], []⟩ 5
      AmmError.upstream rfl rfl rfl).1⟩

/-- C9: for every u64 amount and u64 rate cached for the input asset the
quote arithmetic never reports an overflow: ExactIn always succeeds and
ExactOut succeeds for every positive rate, each returning the exact
128-bit quotient reduced modulo 2^64 by the final u64 cast — so when the
exact result exceeds u64::MAX the returned amount is the exact result
modulo 2^64 rather than an ArithmeticOverflow error. -/
theorem C9_truncation (self : ReflectAmm) (p : QuoteParams) (r : Nat)
    (hrate : self.get_rate_for_input_mint p.input_mint = .ok r)
    (ha : p.amount < U64_SIZE) (hr : r < U64_SIZE) :
    (p.swap_mode = SwapMode.ExactIn →
      self.quote p =
        .ok ⟨p.amount, p.amount * r / BASE_AMOUNT % U64_SIZE, 0, p.input_mint, 0⟩) ∧
    (p.swap_mode = SwapMode.ExactOut → 0 < r →
      self.quote p =
        .ok ⟨(p.amount * BASE_AMOUNT + (r - 1)) / r % U64_SIZE, p.amount, 0,
          p.input_mint, 0⟩) :=
  ⟨fun hmode => quote_exact_in_eq self p r hrate ha hr hmode,
   fun hmode hr0 => quote_exact_out_eq self p r hrate hr0 ha hr hmode⟩

/-- C9 witness: amount 10^10 at rate 10^18 has the exact ExactIn result
10^20, above u64::MAX; quote succeeds and returns 10^20 modulo 2^64. -/
theorem C9_truncation_witness :
    amm_rate_e18.quote
        { amount := 10000000000, input_mint := usdc_mint.ID,
          output_mint := usdc_plus_mint.ID, swap_mode := SwapMode.ExactIn } =
      .ok ⟨10000000000, 7766279631452241920, 0, usdc_mint.ID, 0⟩ ∧
    U64_SIZE < 10000000000 * 1000000000000000000 / BASE_AMOUNT ∧
    10000000000 * 1000000000000000000 / BASE_AMOUNT % U64_SIZE =
      7766279631452241920 :=
  ⟨(C9_truncation amm_rate_e18
      { amount := 10000000000, input_mint := usdc_mint.ID,
        output_mint := usdc_plus_mint.ID, swap_mode := SwapMode.ExactIn }
      1000000000000000000 rfl (by decide) (by decide)).1 rfl,
   by decide, by decide⟩

/-- C10: quote never inspects the output mint — replacing it by any value
whatsoever leaves the result unchanged — and quote fails with the
invalid-input-mint error exactly when the input mint is neither the USDC
mint nor the USDC+ mint. -/
theorem C10_output_mint_ignored (self : ReflectAmm) (p : QuoteParams) (m : Pubkey) :
    self.quote { p with output_mint := m } = self.quote p ∧
    (self.quote p = .error AmmError.invalidInputMint ↔
      ¬ (p.input_mint = usdc_mint.ID ∨ p.input_mint = usdc_plus_mint.ID)) := by
  refine ⟨rfl, ?_⟩
  by_cases h1 : p.input_mint = usdc_mint.ID
  · have hrate : self.get_rate_for_input_mint p.input_mint = .ok self.rate_100_usdc := by
      unfold ReflectAmm.get_rate_for_input_mint
      rw [if_pos h1]
    exact iff_of_false (quote_error_not_input_mint self p _ hrate) (by simp [h1])
  · by_cases h2 : p.input_mint = usdc_plus_mint.ID
    · have hrate : self.get_rate_for_input_mint p.input_mint =
          .ok self.rate_100_usdc_plus := by
        unfold ReflectAmm.get_rate_for_input_mint
        rw [if_neg h1, if_pos h2]
      exact iff_of_false (quote_error_not_input_mint self p _ hrate) (by simp [h2])
    · have hq : self.quote p = .error AmmError.invalidInputMint := by
        unfold ReflectAmm.quote ReflectAmm.get_rate_for_input_mint
        rw [if_neg h1, if_neg h2]
      rw [hq]
      simp [h1, h2]

/-- C10 witness: with a supported input mint, quoting with the output
mint set equal to the input mint gives the same result as quoting with
the matching output mint. -/
theorem C10_output_mint_ignored_witness :
    ReflectAmm.new.quote
        { amount := 5, input_mint := usdc_mint.ID, output_mint := usdc_mint.ID,
          swap_mode := SwapMode.ExactIn } =
      ReflectAmm.new.quote
        { amount := 5, input_mint := usdc_mint.ID,
          output_mint := usdc_plus_mint.ID, swap_mode := SwapMode.ExactIn } :=
  (C10_output_mint_ignored ReflectAmm.new
    { amount := 5, input_mint := usdc_mint.ID, output_mint := usdc_plus_mint.ID,
      swap_mode := SwapMode.ExactIn } usdc_mint.ID).1

end Reflect
